import Mathlib

/-! Shallow embedding of the AI Governance Autopilot workflow
(src/autopilot.py): column sensitivity classification via a hosted model,
DATA_SENSITIVITY tagging, conditional row-access-policy attachment and
audit logging. External effects (the Cortex inference call and the SQL
statements issued through the Snowflake session) are modelled by an
explicit environment and an event trace. -/

/-- Embedding of Python str.upper as used on the label strings of this
workflow (ASCII case mapping over the character data). -/
def pyUpper (s : String) : String := String.mk (s.data.map Char.toUpper)

/-- Embedding of Python str.strip with no argument: remove leading and
trailing whitespace from the string. -/
def pyStrip (s : String) : String :=
  String.mk (((s.data.dropWhile Char.isWhitespace).reverse.dropWhile Char.isWhitespace).reverse)

/-- Python repr of one string value as interpolated inside a list by an
f-string, for values without quote or escape characters. -/
def pyStrRepr (s : String) : String := "\x27" ++ s ++ "\x27"

/-- Python str of a list of strings, as an f-string interpolates it. -/
def pyListRepr (xs : List String) : String :=
  "[" ++ String.intercalate ", " (xs.map pyStrRepr) ++ "]"

/-- Prompt built by classify_column_sensitivity (autopilot.py lines 62 to 69):
sample_values = values[:5] is interpolated, so only the first 5 values of
the input reach the request. -/
def classifyPrompt (col_name : String) (values : List String) : String :=
  let sample_values := values.take 5
  "Classify this column\x27s sensitivity.\nColumn: " ++ col_name ++
    "\nValues: " ++ pyListRepr sample_values ++
    "\nLabels: PII, CONFIDENTIAL, INTERNAL, PUBLIC\nReturn only the label."

/-- Recognized sensitivity labels (autopilot.py line 73). -/
def allowed : List String := ["PII", "CONFIDENTIAL", "INTERNAL", "PUBLIC"]

/-- Embedding of classify_column_sensitivity (autopilot.py lines 43 to 74).
The cortex.complete call is abstracted by the oracle complete, which maps
the prompt to the raw model response, or to an error when the inference
call raises; an inference error propagates to the caller. -/
def classify_column_sensitivity (complete : String → Except Unit String)
    (col_name : String) (values : List String) : Except Unit String :=
  match complete (classifyPrompt col_name values) with
  | Except.error e => Except.error e
  | Except.ok result =>
    let label := pyUpper (pyStrip result)
    Except.ok (if label ∈ allowed then label else "INTERNAL")

/-- Row of the GOVERNANCE_AUTOPILOT_LOG table as inserted by the workflow
(EVENT_TIME defaults in the warehouse and is not part of the values the
workflow supplies). COLUMN_NAME is nullable. -/
structure AuditRecord where
  object_type : String
  object_name : String
  column_name : Option String
  action : String
  details : String
deriving DecidableEq

/-- TAG_APPLIED audit row (autopilot.py lines 125 to 127). -/
def tagRecord (full_table_name col_name label : String) : AuditRecord :=
  { object_type := "TABLE", object_name := full_table_name,
    column_name := some col_name, action := "TAG_APPLIED",
    details := "DATA_SENSITIVITY=" ++ label }

/-- POLICY_ATTACHED audit row (autopilot.py lines 141 to 143). -/
def attachedRecord (full_table_name : String) : AuditRecord :=
  { object_type := "TABLE", object_name := full_table_name,
    column_name := none, action := "POLICY_ATTACHED",
    details := "PII_ROW_POLICY" }

/-- POLICY_SKIPPED audit row (autopilot.py lines 147 to 149). -/
def skippedRecord (full_table_name : String) : AuditRecord :=
  { object_type := "TABLE", object_name := full_table_name,
    column_name := none, action := "POLICY_SKIPPED",
    details := "ROW_ACCESS_POLICY already present or attach failed" }

/-- Statements the workflow issues against the warehouse, in order of
issue; a statement appears in the trace when it is executed, whether or
not it raises. -/
inductive Event where
  | sampleTable (table : String)
  | createLogTable
  | tagStmt (table col label : String)
  | insertStmt (rec : AuditRecord)
  | policyStmt (table : String)
deriving DecidableEq

/-- Environment of one run: the sampled columns and values, the Cortex
oracle, and which statements raise when executed. -/
structure Env where
  columns : List String
  colValues : String → List String
  complete : String → Except Unit String
  sampleError : Bool
  tagError : String → Bool
  tagInsertError : String → Bool
  policyError : Bool
  attachInsertError : Bool
  skipInsertError : Bool

/-- Label a column receives in an environment: the classifier result with
the additional upper-casing of autopilot.py line 115, or none when the
inference call raises. -/
def colLabel (env : Env) (col_name : String) : Option String :=
  match classify_column_sensitivity env.complete col_name (env.colValues col_name) with
  | Except.error _ => none
  | Except.ok raw_label => some (pyUpper raw_label)

/-- Result of the per-column loop: issued statements, successfully
inserted audit rows, the has_pii flag, and whether the loop ran to the
end without an uncaught error. -/
structure ColsResult where
  events : List Event
  inserted : List AuditRecord
  has_pii : Bool
  ok : Bool
deriving DecidableEq

/-- Embedding of the column loop of classify_and_protect_table
(autopilot.py lines 112 to 131): classify, apply the tag, insert the
TAG_APPLIED row, set has_pii when the label is PII. An error in the
classification, the tag statement or the insert terminates the loop. -/
def processColumns (env : Env) (full_table_name : String) :
    List String → Bool → ColsResult
  | [], has_pii => { events := [], inserted := [], has_pii := has_pii, ok := true }
  | col_name :: rest, has_pii =>
    match classify_column_sensitivity env.complete col_name (env.colValues col_name) with
    | Except.error _ => { events := [], inserted := [], has_pii := has_pii, ok := false }
    | Except.ok raw_label =>
      let label := pyUpper raw_label
      let tagEv := Event.tagStmt full_table_name col_name label
      if env.tagError col_name then
        { events := [tagEv], inserted := [], has_pii := has_pii, ok := false }
      else
        let row := tagRecord full_table_name col_name label
        if env.tagInsertError col_name then
          { events := [tagEv, Event.insertStmt row], inserted := [],
            has_pii := has_pii, ok := false }
        else
          let has_pii2 := if label = "PII" then true else has_pii
          let out := processColumns env full_table_name rest has_pii2
          { events := tagEv :: Event.insertStmt row :: out.events,
            inserted := row :: out.inserted,
            has_pii := out.has_pii, ok := out.ok }

/-- Outcome of a whole run: issued statements, successfully inserted audit
rows, the final has_pii flag, and whether the run reached the final
completion message of autopilot.py line 154. -/
structure RunOutput where
  events : List Event
  inserted : List AuditRecord
  has_pii : Bool
  completed : Bool
deriving DecidableEq

/-- Embedding of classify_and_protect_table (autopilot.py lines 77 to 154).
The table is sampled, the log table is created if absent (CREATE TABLE IF
NOT EXISTS raises no error either way), the column loop runs, and when
has_pii is set the policy attachment is attempted inside a try block whose
except branch inserts POLICY_SKIPPED; the POLICY_ATTACHED insert sits
inside the same try block, so its failure also reaches the except branch,
while a failure of the POLICY_SKIPPED insert itself propagates. -/
def classify_and_protect_table (env : Env) (full_table_name : String) : RunOutput :=
  if env.sampleError then
    { events := [Event.sampleTable full_table_name], inserted := [],
      has_pii := false, completed := false }
  else
    let headEvents := [Event.sampleTable full_table_name, Event.createLogTable]
    let c := processColumns env full_table_name env.columns false
    if c.ok = false then
      { events := headEvents ++ c.events, inserted := c.inserted,
        has_pii := c.has_pii, completed := false }
    else if c.has_pii then
      if env.policyError then
        if env.skipInsertError then
          { events := headEvents ++ c.events ++
              [Event.policyStmt full_table_name,
               Event.insertStmt (skippedRecord full_table_name)],
            inserted := c.inserted, has_pii := c.has_pii, completed := false }
        else
          { events := headEvents ++ c.events ++
              [Event.policyStmt full_table_name,
               Event.insertStmt (skippedRecord full_table_name)],
            inserted := c.inserted ++ [skippedRecord full_table_name],
            has_pii := c.has_pii, completed := true }
      else if env.attachInsertError then
        if env.skipInsertError then
          { events := headEvents ++ c.events ++
              [Event.policyStmt full_table_name,
               Event.insertStmt (attachedRecord full_table_name),
               Event.insertStmt (skippedRecord full_table_name)],
            inserted := c.inserted, has_pii := c.has_pii, completed := false }
        else
          { events := headEvents ++ c.events ++
              [Event.policyStmt full_table_name,
               Event.insertStmt (attachedRecord full_table_name),
               Event.insertStmt (skippedRecord full_table_name)],
            inserted := c.inserted ++ [skippedRecord full_table_name],
            has_pii := c.has_pii, completed := true }
      else
        { events := headEvents ++ c.events ++
            [Event.policyStmt full_table_name,
             Event.insertStmt (attachedRecord full_table_name)],
          inserted := c.inserted ++ [attachedRecord full_table_name],
          has_pii := c.has_pii, completed := true }
    else
      { events := headEvents ++ c.events, inserted := c.inserted,
        has_pii := c.has_pii, completed := true }

/-- Persistent warehouse state touched by the workflow: whether the
GOVERNANCE_AUTOPILOT_LOG table exists, and its rows in insertion order. -/
structure Warehouse where
  logTableExists : Bool
  auditLog : List AuditRecord
deriving DecidableEq

/-- Effect of one run on the warehouse: CREATE TABLE IF NOT EXISTS makes
the log table exist (and raises no error when it already does), and the
successfully inserted rows are appended to the log; rows are never
updated or deleted. -/
def applyRun (env : Env) (full_table_name : String) (w : Warehouse) : Warehouse :=
  { logTableExists := if env.sampleError then w.logTableExists else true,
    auditLog := w.auditLog ++ (classify_and_protect_table env full_table_name).inserted }

/-- Concrete error-free environment over a three-column sample whose model
responses classify NAME as PUBLIC, EMAIL as PII and NOTES as INTERNAL. -/
def envA : Env :=
  { columns := ["NAME", "EMAIL", "NOTES"],
    colValues := fun c => [c],
    complete := fun p =>
      if p = classifyPrompt "EMAIL" ["EMAIL"] then Except.ok "PII"
      else if p = classifyPrompt "NAME" ["NAME"] then Except.ok "public"
      else Except.ok "internal",
    sampleError := false, tagError := fun _ => false,
    tagInsertError := fun _ => false, policyError := false,
    attachInsertError := false, skipInsertError := false }

/-- Variant of envA in which the policy-attach statement raises. -/
def envB : Env := { envA with policyError := true }

/-- Variant of envA in which every response classifies as INTERNAL, so no
column is labeled PII. -/
def envC : Env := { envA with complete := fun _ => Except.ok "internal" }

/-- Variant of envA in which sampling the table raises. -/
def envS : Env := { envA with sampleError := true }

/-- Variant of envA in which every inference call raises. -/
def envE : Env := { envA with complete := fun _ => Except.error () }

/-- Variant of envA in which every tag-application statement raises. -/
def envT : Env := { envA with tagError := fun _ => true }

/-- C1: for every column name and value list, if the raw model response,
after trimming whitespace and upper-casing, is not one of PII,
CONFIDENTIAL, INTERNAL, PUBLIC, then classify_column_sensitivity returns
the string INTERNAL (in particular never PUBLIC or PII). -/
theorem C1_unrecognized_response_internal
    (complete : String → Except Unit String) (col_name : String)
    (values : List String) (result : String)
    (hres : complete (classifyPrompt col_name values) = Except.ok result)
    (hnot : pyUpper (pyStrip result) ∉ allowed) :
    classify_column_sensitivity complete col_name values = Except.ok "INTERNAL" := by
  simp [classify_column_sensitivity, hres, hnot]

/-- C1 witness: at the concrete response "Maybe PII" the hypotheses hold
and the classifier returns INTERNAL. -/
theorem C1_witness :
    pyUpper (pyStrip "Maybe PII") ∉ allowed ∧
      classify_column_sensitivity (fun _ => Except.ok "Maybe PII") "EMAIL" ["a"] =
        Except.ok "INTERNAL" :=
  ⟨by decide, C1_unrecognized_response_internal _ "EMAIL" ["a"] "Maybe PII" rfl (by decide)⟩

/-- C2: for every raw model response whose trimmed, upper-cased form is one
of PII, CONFIDENTIAL, INTERNAL, PUBLIC, classify_column_sensitivity
returns exactly that normalized label, which is itself free of
surrounding whitespace and fixed under upper-casing. -/
theorem C2_recognized_response_returned
    (complete : String → Except Unit String) (col_name : String)
    (values : List String) (result : String)
    (hres : complete (classifyPrompt col_name values) = Except.ok result)
    (hmem : pyUpper (pyStrip result) ∈ allowed) :
    classify_column_sensitivity complete col_name values =
        Except.ok (pyUpper (pyStrip result)) ∧
      pyStrip (pyUpper (pyStrip result)) = pyUpper (pyStrip result) ∧
      pyUpper (pyUpper (pyStrip result)) = pyUpper (pyStrip result) := by
  have hfix : ∀ L ∈ allowed, pyStrip L = L ∧ pyUpper L = L := by decide
  exact ⟨by simp [classify_column_sensitivity, hres, hmem],
    (hfix _ hmem).1, (hfix _ hmem).2⟩

/-- C2 witness: the concrete response with casing and whitespace is
normalized to the exact label PII. -/
theorem C2_witness :
    pyUpper (pyStrip "  pii\n") ∈ allowed ∧
      classify_column_sensitivity (fun _ => Except.ok "  pii\n") "EMAIL" ["a"] =
        Except.ok "PII" := by
  have h := C2_recognized_response_returned
    (fun _ => Except.ok "  pii\n") "EMAIL" ["a"] "  pii\n" rfl (by decide)
  exact ⟨by decide, h.1⟩

/-- C3: the prompt built by classify_column_sensitivity embeds only the
first 5 elements of the value list, for lists of any length including
the empty list; for an input of 100 values the request references
exactly 5 values. -/
theorem C3_prompt_embeds_first_five :
    (∀ (col_name : String) (values : List String),
        classifyPrompt col_name values = classifyPrompt col_name (values.take 5)) ∧
    (∀ values : List String, values.length = 100 →
        (values.take 5).length = 5 ∧
        ∀ col_name, classifyPrompt col_name values =
          classifyPrompt col_name (values.take 5)) := by
  constructor
  · intro col_name values
    simp [classifyPrompt, List.take_take]
  · intro values h
    refine ⟨by simp [List.length_take, h], ?_⟩
    intro col_name
    simp [classifyPrompt, List.take_take]

/-- C3 witness: for a concrete 100-element value list the prompt equals the
prompt of its 5-element truncation, and the truncation has length 5. -/
theorem C3_witness :
    ((List.replicate 100 "v").take 5).length = 5 ∧
      classifyPrompt "EMAIL" (List.replicate 100 "v") =
        classifyPrompt "EMAIL" ((List.replicate 100 "v").take 5) :=
  ⟨(C3_prompt_embeds_first_five.2 (List.replicate 100 "v") (by simp)).1,
   C3_prompt_embeds_first_five.1 "EMAIL" (List.replicate 100 "v")⟩

/-- Helper: every row the column loop inserts is the TAG_APPLIED row of
one of its columns, carrying the label that column received. -/
theorem mem_processColumns_inserted (env : Env) (t : String) :
    ∀ (cols : List String) (hp : Bool) (r : AuditRecord),
      r ∈ (processColumns env t cols hp).inserted →
      ∃ col lab, col ∈ cols ∧ colLabel env col = some lab ∧ r = tagRecord t col lab := by
  intro cols
  induction cols with
  | nil => intro hp r h; simp [processColumns] at h
  | cons col rest ih =>
    intro hp r h
    cases hcl : classify_column_sensitivity env.complete col (env.colValues col) with
    | error e => simp [processColumns, hcl] at h
    | ok raw_label =>
      cases hte : env.tagError col with
      | true => simp [processColumns, hcl, hte] at h
      | false =>
        cases htie : env.tagInsertError col with
        | true => simp [processColumns, hcl, hte, htie] at h
        | false =>
          simp [processColumns, hcl, hte, htie, List.mem_cons] at h
          rcases h with h | h
          · exact ⟨col, pyUpper raw_label, List.mem_cons_self _ _,
              by simp [colLabel, hcl], h⟩
          · obtain ⟨c2, lab, hc2, hlab, hr⟩ := ih _ r h
            exact ⟨c2, lab, List.mem_cons_of_mem _ hc2, hlab, hr⟩

/-- Helper: the column loop never issues a row-access-policy statement. -/
theorem processColumns_no_policyStmt (env : Env) (t : String) :
    ∀ (cols : List String) (hp : Bool) (tbl : String),
      Event.policyStmt tbl ∉ (processColumns env t cols hp).events := by
  intro cols
  induction cols with
  | nil => intro hp tbl h; simp [processColumns] at h
  | cons col rest ih =>
    intro hp tbl h
    cases hcl : classify_column_sensitivity env.complete col (env.colValues col) with
    | error e => simp [processColumns, hcl] at h
    | ok raw_label =>
      cases hte : env.tagError col with
      | true => simp [processColumns, hcl, hte] at h
      | false =>
        cases htie : env.tagInsertError col with
        | true => simp [processColumns, hcl, hte, htie] at h
        | false =>
          simp [processColumns, hcl, hte, htie, List.mem_cons] at h
          exact ih _ tbl h

/-- Helper: once the has_pii flag is true it stays true for the rest of
the loop, whether or not the loop later fails. -/
theorem processColumns_haspii_mono (env : Env) (t : String) :
    ∀ (cols : List String), (processColumns env t cols true).has_pii = true := by
  intro cols
  induction cols with
  | nil => simp [processColumns]
  | cons col rest ih =>
    cases hcl : classify_column_sensitivity env.complete col (env.colValues col) with
    | error e => simp [processColumns, hcl]
    | ok raw_label =>
      cases hte : env.tagError col with
      | true => simp [processColumns, hcl, hte]
      | false =>
        cases htie : env.tagInsertError col with
        | true => simp [processColumns, hcl, hte, htie]
        | false => simp [processColumns, hcl, hte, htie, ih]

/-- Helper: when the loop ends with the flag set, either it started set or
some column of the loop was labeled PII. -/
theorem processColumns_haspii_imp (env : Env) (t : String) :
    ∀ (cols : List String) (hp : Bool),
      (processColumns env t cols hp).has_pii = true →
      hp = true ∨ ∃ col ∈ cols, colLabel env col = some "PII" := by
  intro cols
  induction cols with
  | nil => intro hp h; simp [processColumns] at h; exact Or.inl h
  | cons col rest ih =>
    intro hp h
    cases hcl : classify_column_sensitivity env.complete col (env.colValues col) with
    | error e =>
      simp [processColumns, hcl] at h
      exact Or.inl h
    | ok raw_label =>
      cases hte : env.tagError col with
      | true => simp [processColumns, hcl, hte] at h; exact Or.inl h
      | false =>
        cases htie : env.tagInsertError col with
        | true => simp [processColumns, hcl, hte, htie] at h; exact Or.inl h
        | false =>
          simp [processColumns, hcl, hte, htie] at h
          by_cases hlab : pyUpper raw_label = "PII"
          · exact Or.inr ⟨col, List.mem_cons_self _ _, by simp [colLabel, hcl, hlab]⟩
          · simp [hlab] at h
            rcases ih _ h with h2 | ⟨c2, hc2, hl2⟩
            · exact Or.inl h2
            · exact Or.inr ⟨c2, List.mem_cons_of_mem _ hc2, hl2⟩

/-- Helper: when the loop runs to the end and some column of it is labeled
PII, the flag ends set. -/
theorem processColumns_haspii_of_mem (env : Env) (t : String) :
    ∀ (cols : List String) (hp : Bool),
      (processColumns env t cols hp).ok = true →
      (∃ col ∈ cols, colLabel env col = some "PII") →
      (processColumns env t cols hp).has_pii = true := by
  intro cols
  induction cols with
  | nil => intro hp _ hex; simp at hex
  | cons col rest ih =>
    intro hp hok hex
    cases hcl : classify_column_sensitivity env.complete col (env.colValues col) with
    | error e => simp [processColumns, hcl] at hok
    | ok raw_label =>
      cases hte : env.tagError col with
      | true => simp [processColumns, hcl, hte] at hok
      | false =>
        cases htie : env.tagInsertError col with
        | true => simp [processColumns, hcl, hte, htie] at hok
        | false =>
          simp [processColumns, hcl, hte, htie] at hok ⊢
          rcases hex with ⟨c2, hc2, hl2⟩
          rcases List.mem_cons.mp hc2 with rfl | hc2r
          · have hlab : pyUpper raw_label = "PII" := by
              simp [colLabel, hcl] at hl2
              exact hl2
            simp [hlab]
            exact processColumns_haspii_mono env t rest
          · by_cases hlab : pyUpper raw_label = "PII"
            · simp [hlab]
              exact processColumns_haspii_mono env t rest
            · simp [hlab] at hok ⊢
              exact ih hp hok ⟨c2, hc2r, hl2⟩

/-- Helper: a column with a label has a successful classifier call behind
it, whose upper-cased result is that label. -/
theorem colLabel_ok (env : Env) (col lab : String) (h : colLabel env col = some lab) :
    ∃ raw, classify_column_sensitivity env.complete col (env.colValues col) = Except.ok raw ∧
      pyUpper raw = lab := by
  unfold colLabel at h
  cases hcl : classify_column_sensitivity env.complete col (env.colValues col) with
  | error e => rw [hcl] at h; simp at h
  | ok raw =>
    rw [hcl] at h
    simp at h
    exact ⟨raw, rfl, h⟩

/-- C4: for a run over a sampled table with columns A, B, C classified as
PUBLIC, PII, INTERNAL and no fatal statement errors, exactly 3
TAG_APPLIED audit rows are inserted, one per column in order, the
run-level PII flag ends true, and exactly one policy-related audit row
(POLICY_ATTACHED, or POLICY_SKIPPED when the attach raises) is inserted
after them. -/
theorem C4_three_column_run (env : Env) (t A B C : String)
    (hcols : env.columns = [A, B, C])
    (hs : env.sampleError = false)
    (hA : colLabel env A = some "PUBLIC")
    (hB : colLabel env B = some "PII")
    (hC : colLabel env C = some "INTERNAL")
    (htA : env.tagError A = false) (htB : env.tagError B = false)
    (htC : env.tagError C = false)
    (hiA : env.tagInsertError A = false) (hiB : env.tagInsertError B = false)
    (hiC : env.tagInsertError C = false)
    (hai : env.attachInsertError = false) (hsi : env.skipInsertError = false) :
    (classify_and_protect_table env t).has_pii = true ∧
    (classify_and_protect_table env t).completed = true ∧
    (classify_and_protect_table env t).inserted =
      [tagRecord t A "PUBLIC", tagRecord t B "PII", tagRecord t C "INTERNAL",
       if env.policyError then skippedRecord t else attachedRecord t] ∧
    ((classify_and_protect_table env t).inserted.filter
        (fun r => r.action == "TAG_APPLIED")).length = 3 ∧
    ((classify_and_protect_table env t).inserted.filter
        (fun r => r.action == "POLICY_ATTACHED" || r.action == "POLICY_SKIPPED")).length = 1 := by
  obtain ⟨rawA, hclA, hA2⟩ := colLabel_ok env A "PUBLIC" hA
  obtain ⟨rawB, hclB, hB2⟩ := colLabel_ok env B "PII" hB
  obtain ⟨rawC, hclC, hC2⟩ := colLabel_ok env C "INTERNAL" hC
  have hins : (processColumns env t [A, B, C] false).inserted =
      [tagRecord t A "PUBLIC", tagRecord t B "PII", tagRecord t C "INTERNAL"] := by
    simp [processColumns, hclA, hclB, hclC, htA, htB, htC, hiA, hiB, hiC, hA2, hB2, hC2]
  have hok : (processColumns env t [A, B, C] false).ok = true := by
    simp [processColumns, hclA, hclB, hclC, htA, htB, htC, hiA, hiB, hiC]
  have hpii : (processColumns env t [A, B, C] false).has_pii = true := by
    simp [processColumns, hclA, hclB, hclC, htA, htB, htC, hiA, hiB, hiC, hA2, hB2, hC2]
  cases hpe : env.policyError with
  | true =>
    simp [classify_and_protect_table, hs, hcols, hins, hok, hpii, hpe, hai, hsi,
      tagRecord, skippedRecord, attachedRecord]
  | false =>
    simp [classify_and_protect_table, hs, hcols, hins, hok, hpii, hpe, hai, hsi,
      tagRecord, skippedRecord, attachedRecord]

/-- C4 witness: the concrete three-column environment envA instantiates
the hypotheses and the run inserts 3 tag rows then one policy row. -/
theorem C4_witness :
    (classify_and_protect_table envA "T").has_pii = true ∧
    (classify_and_protect_table envA "T").completed = true ∧
    (classify_and_protect_table envA "T").inserted =
      [tagRecord "T" "NAME" "PUBLIC", tagRecord "T" "EMAIL" "PII",
       tagRecord "T" "NOTES" "INTERNAL",
       if envA.policyError then skippedRecord "T" else attachedRecord "T"] ∧
    ((classify_and_protect_table envA "T").inserted.filter
        (fun r => r.action == "TAG_APPLIED")).length = 3 ∧
    ((classify_and_protect_table envA "T").inserted.filter
        (fun r => r.action == "POLICY_ATTACHED" || r.action == "POLICY_SKIPPED")).length = 1 :=
  C4_three_column_run envA "T" "NAME" "EMAIL" "NOTES" rfl rfl (by decide) (by decide)
    (by decide) rfl rfl rfl rfl rfl rfl rfl rfl

/-- C5: if the policy-attach statement raises during a run whose PII flag
is set, the run still reaches the final completion message and exactly
one POLICY_SKIPPED row is inserted in place of a POLICY_ATTACHED row. -/
theorem C5_policy_error_still_completes (env : Env) (t : String)
    (hs : env.sampleError = false)
    (hok : (processColumns env t env.columns false).ok = true)
    (hpii : (processColumns env t env.columns false).has_pii = true)
    (hpe : env.policyError = true)
    (hsi : env.skipInsertError = false) :
    (classify_and_protect_table env t).completed = true ∧
    (classify_and_protect_table env t).inserted =
      (processColumns env t env.columns false).inserted ++ [skippedRecord t] ∧
    ((classify_and_protect_table env t).inserted.filter
        (fun r => r.action == "POLICY_SKIPPED")).length = 1 ∧
    ((classify_and_protect_table env t).inserted.filter
        (fun r => r.action == "POLICY_ATTACHED")).length = 0 := by
  have h1 : (classify_and_protect_table env t).completed = true := by
    simp [classify_and_protect_table, hs, hok, hpii, hpe, hsi]
  have h2 : (classify_and_protect_table env t).inserted =
      (processColumns env t env.columns false).inserted ++ [skippedRecord t] := by
    simp [classify_and_protect_table, hs, hok, hpii, hpe, hsi]
  have hskipnil : (processColumns env t env.columns false).inserted.filter
      (fun r => r.action == "POLICY_SKIPPED") = [] := by
    rw [List.filter_eq_nil_iff]
    intro r hr
    obtain ⟨col, lab, _, _, rfl⟩ := mem_processColumns_inserted env t _ _ r hr
    simp [tagRecord]
  have hattnil : (processColumns env t env.columns false).inserted.filter
      (fun r => r.action == "POLICY_ATTACHED") = [] := by
    rw [List.filter_eq_nil_iff]
    intro r hr
    obtain ⟨col, lab, _, _, rfl⟩ := mem_processColumns_inserted env t _ _ r hr
    simp [tagRecord]
  refine ⟨h1, h2, ?_, ?_⟩
  · rw [h2, List.filter_append, hskipnil]
    simp [skippedRecord]
  · rw [h2, List.filter_append, hattnil]
    simp [skippedRecord]

/-- C5 witness: envB is envA with a raising policy-attach statement; the
run completes and appends exactly one POLICY_SKIPPED row. -/
theorem C5_witness :
    (classify_and_protect_table envB "T").completed = true ∧
    (classify_and_protect_table envB "T").inserted =
      (processColumns envB "T" envB.columns false).inserted ++ [skippedRecord "T"] ∧
    ((classify_and_protect_table envB "T").inserted.filter
        (fun r => r.action == "POLICY_SKIPPED")).length = 1 ∧
    ((classify_and_protect_table envB "T").inserted.filter
        (fun r => r.action == "POLICY_ATTACHED")).length = 0 :=
  C5_policy_error_still_completes envB "T" rfl (by decide) (by decide) rfl rfl

/-- C6: in a run where no column is labeled PII, no row-access-policy
statement is issued, every inserted audit row is a TAG_APPLIED one, and
the PII flag ends false; this holds whether or not the run fails early. -/
theorem C6_no_pii_no_policy (env : Env) (t : String)
    (hnopii : ∀ col ∈ env.columns, colLabel env col ≠ some "PII") :
    (∀ tbl, Event.policyStmt tbl ∉ (classify_and_protect_table env t).events) ∧
    (∀ r ∈ (classify_and_protect_table env t).inserted, r.action = "TAG_APPLIED") ∧
    (classify_and_protect_table env t).has_pii = false := by
  have hpf : (processColumns env t env.columns false).has_pii = false := by
    cases hp : (processColumns env t env.columns false).has_pii with
    | false => rfl
    | true =>
      rcases processColumns_haspii_imp env t env.columns false hp with h | ⟨col, hc, hl⟩
      · exact absurd h (by simp)
      · exact absurd hl (hnopii col hc)
  cases hs : env.sampleError with
  | true =>
    refine ⟨?_, ?_, ?_⟩
    · intro tbl; simp [classify_and_protect_table, hs]
    · intro r hr; simp [classify_and_protect_table, hs] at hr
    · simp [classify_and_protect_table, hs]
  | false =>
    have hshape : (classify_and_protect_table env t).events =
        [Event.sampleTable t, Event.createLogTable] ++
          (processColumns env t env.columns false).events ∧
        (classify_and_protect_table env t).inserted =
          (processColumns env t env.columns false).inserted ∧
        (classify_and_protect_table env t).has_pii = false := by
      cases hok : (processColumns env t env.columns false).ok with
      | false =>
        refine ⟨?_, ?_, ?_⟩ <;> simp [classify_and_protect_table, hs, hok, hpf]
      | true =>
        refine ⟨?_, ?_, ?_⟩ <;> simp [classify_and_protect_table, hs, hok, hpf]
    refine ⟨?_, ?_, hshape.2.2⟩
    · intro tbl h
      rw [hshape.1] at h
      simp [List.mem_append, List.mem_cons] at h
      exact processColumns_no_policyStmt env t env.columns false tbl h
    · intro r hr
      rw [hshape.2.1] at hr
      obtain ⟨col, lab, _, _, rfl⟩ := mem_processColumns_inserted env t _ _ r hr
      simp [tagRecord]

/-- C6 witness: in envC every column classifies as INTERNAL, so the run
issues no policy statement and inserts only TAG_APPLIED rows. -/
theorem C6_witness :
    (∀ tbl, Event.policyStmt tbl ∉ (classify_and_protect_table envC "T").events) ∧
    (∀ r ∈ (classify_and_protect_table envC "T").inserted, r.action = "TAG_APPLIED") ∧
    (classify_and_protect_table envC "T").has_pii = false :=
  C6_no_pii_no_policy envC "T" (by decide)

/-- C7: a sampling error ends the run at once; an inference error or a
raising tag statement at a column ends the loop with no dependence on the
remaining columns; and whenever the loop fails, the run does not reach
the completion message, issues no policy statement, and inserts no
policy-related row. -/
theorem C7_fatal_errors_terminate (env : Env) (t : String) :
    (env.sampleError = true →
      classify_and_protect_table env t =
        { events := [Event.sampleTable t], inserted := [], has_pii := false,
          completed := false }) ∧
    (∀ (col_name : String) (rest : List String) (hp : Bool),
      classify_column_sensitivity env.complete col_name (env.colValues col_name) =
          Except.error () →
      processColumns env t (col_name :: rest) hp =
        { events := [], inserted := [], has_pii := hp, ok := false }) ∧
    (∀ (col_name : String) (rest : List String) (hp : Bool) (raw_label : String),
      classify_column_sensitivity env.complete col_name (env.colValues col_name) =
          Except.ok raw_label →
      env.tagError col_name = true →
      processColumns env t (col_name :: rest) hp =
        { events := [Event.tagStmt t col_name (pyUpper raw_label)], inserted := [],
          has_pii := hp, ok := false }) ∧
    ((processColumns env t env.columns false).ok = false →
      (classify_and_protect_table env t).completed = false ∧
      (∀ tbl, Event.policyStmt tbl ∉ (classify_and_protect_table env t).events) ∧
      (∀ r ∈ (classify_and_protect_table env t).inserted, r.action = "TAG_APPLIED")) := by
  refine ⟨?_, ?_, ?_, ?_⟩
  · intro hs
    simp [classify_and_protect_table, hs]
  · intro col_name rest hp hcl
    simp [processColumns, hcl]
  · intro col_name rest hp raw_label hcl hte
    simp [processColumns, hcl, hte]
  · intro hok
    cases hs : env.sampleError with
    | true =>
      refine ⟨by simp [classify_and_protect_table, hs], ?_, ?_⟩
      · intro tbl
        simp [classify_and_protect_table, hs]
      · intro r hr
        simp [classify_and_protect_table, hs] at hr
    | false =>
      refine ⟨by simp [classify_and_protect_table, hs, hok], ?_, ?_⟩
      · intro tbl h
        simp [classify_and_protect_table, hs, hok, List.mem_append, List.mem_cons] at h
        exact processColumns_no_policyStmt env t env.columns false tbl h
      · intro r hr
        simp [classify_and_protect_table, hs, hok] at hr
        obtain ⟨col, lab, _, _, rfl⟩ := mem_processColumns_inserted env t _ _ r hr
        simp [tagRecord]

/-- C7 witness: concrete runs with a sampling error, an inference error and
a raising tag statement each terminate as the theorem states. -/
theorem C7_witness :
    classify_and_protect_table envS "T" =
      { events := [Event.sampleTable "T"], inserted := [], has_pii := false,
        completed := false } ∧
    processColumns envE "T" ("NAME" :: ["EMAIL"]) false =
      { events := [], inserted := [], has_pii := false, ok := false } ∧
    processColumns envT "T" ("NAME" :: ["EMAIL"]) false =
      { events := [Event.tagStmt "T" "NAME" (pyUpper "PUBLIC")], inserted := [],
        has_pii := false, ok := false } ∧
    ((classify_and_protect_table envE "T").completed = false ∧
      (∀ tbl, Event.policyStmt tbl ∉ (classify_and_protect_table envE "T").events) ∧
      (∀ r ∈ (classify_and_protect_table envE "T").inserted, r.action = "TAG_APPLIED")) :=
  ⟨(C7_fatal_errors_terminate envS "T").1 rfl,
   (C7_fatal_errors_terminate envE "T").2.1 "NAME" ["EMAIL"] false rfl,
   (C7_fatal_errors_terminate envT "T").2.2.1 "NAME" ["EMAIL"] false "PUBLIC"
     rfl rfl,
   (C7_fatal_errors_terminate envE "T").2.2.2 (by decide)⟩

/-- C8: after a first run the log table exists, a second run on the same
table completes its create-if-absent guard without error (the guard never
raises in this model of CREATE TABLE IF NOT EXISTS) and appends its own
audit rows after the first run's rows, which are preserved, so history
accumulates rather than being replaced. -/
theorem C8_rerun_appends (env1 env2 : Env) (t : String) (w : Warehouse)
    (h1 : env1.sampleError = false) (h2 : env2.sampleError = false)
    (hne : (classify_and_protect_table env2 t).inserted ≠ []) :
    (applyRun env1 t w).logTableExists = true ∧
    (applyRun env2 t (applyRun env1 t w)).logTableExists = true ∧
    (applyRun env2 t (applyRun env1 t w)).auditLog =
      (applyRun env1 t w).auditLog ++ (classify_and_protect_table env2 t).inserted ∧
    (applyRun env2 t (applyRun env1 t w)).auditLog =
      w.auditLog ++ (classify_and_protect_table env1 t).inserted
        ++ (classify_and_protect_table env2 t).inserted ∧
    (applyRun env2 t (applyRun env1 t w)).auditLog ≠ (applyRun env1 t w).auditLog := by
  refine ⟨by simp [applyRun, h1], by simp [applyRun, h2], by simp [applyRun], ?_, ?_⟩
  · simp [applyRun, List.append_assoc]
  · intro hcontra
    have hlen := congrArg List.length hcontra
    simp only [applyRun, List.length_append] at hlen
    have hzero : (classify_and_protect_table env2 t).inserted.length = 0 := by omega
    exact hne (List.length_eq_zero.mp hzero)

/-- C8 witness: two concrete runs of envA on an initially empty warehouse
accumulate both runs' audit rows. -/
theorem C8_witness :
    (applyRun envA "T" { logTableExists := false, auditLog := [] }).logTableExists = true ∧
    (applyRun envA "T" (applyRun envA "T"
        { logTableExists := false, auditLog := [] })).logTableExists = true ∧
    (applyRun envA "T" (applyRun envA "T"
        { logTableExists := false, auditLog := [] })).auditLog =
      (applyRun envA "T" { logTableExists := false, auditLog := [] }).auditLog ++
        (classify_and_protect_table envA "T").inserted ∧
    (applyRun envA "T" (applyRun envA "T"
        { logTableExists := false, auditLog := [] })).auditLog =
      ({ logTableExists := false, auditLog := [] } : Warehouse).auditLog ++
        (classify_and_protect_table envA "T").inserted ++
        (classify_and_protect_table envA "T").inserted ∧
    (applyRun envA "T" (applyRun envA "T"
        { logTableExists := false, auditLog := [] })).auditLog ≠
      (applyRun envA "T" { logTableExists := false, auditLog := [] }).auditLog :=
  C8_rerun_appends envA envA "T" { logTableExists := false, auditLog := [] }
    rfl rfl (by decide)

/-- C9: the has_pii flag is monotone (once true it stays true), a set flag
traces back to a PII-labeled column, for completed loops the flag equals
whether some column of the loop was labeled PII, and the policy branch of
a completed run executes exactly when some sampled column was labeled
PII. -/
theorem C9_haspii_flag_invariant (env : Env) (t : String) :
    (∀ cols : List String, (processColumns env t cols true).has_pii = true) ∧
    (∀ (cols : List String) (hp : Bool),
        (processColumns env t cols hp).has_pii = true →
        hp = true ∨ ∃ col ∈ cols, colLabel env col = some "PII") ∧
    (∀ (cols : List String) (hp : Bool),
        (processColumns env t cols hp).ok = true →
        ((processColumns env t cols hp).has_pii = true ↔
          hp = true ∨ ∃ col ∈ cols, colLabel env col = some "PII")) ∧
    (env.sampleError = false →
      (processColumns env t env.columns false).ok = true →
      (Event.policyStmt t ∈ (classify_and_protect_table env t).events ↔
        ∃ col ∈ env.columns, colLabel env col = some "PII")) := by
  refine ⟨processColumns_haspii_mono env t, processColumns_haspii_imp env t, ?_, ?_⟩
  · intro cols hp hok
    constructor
    · exact processColumns_haspii_imp env t cols hp
    · intro h
      rcases h with h | hex
      · subst h
        exact processColumns_haspii_mono env t cols
      · exact processColumns_haspii_of_mem env t cols hp hok hex
  · intro hs hok
    cases hp : (processColumns env t env.columns false).has_pii with
    | true =>
      have hex : ∃ col ∈ env.columns, colLabel env col = some "PII" := by
        rcases processColumns_haspii_imp env t env.columns false hp with h | hex
        · simp at h
        · exact hex
      refine ⟨fun _ => hex, fun _ => ?_⟩
      cases hpe : env.policyError with
      | true =>
        cases hsi : env.skipInsertError with
        | true => simp [classify_and_protect_table, hs, hok, hp, hpe, hsi]
        | false => simp [classify_and_protect_table, hs, hok, hp, hpe, hsi]
      | false =>
        cases hai : env.attachInsertError with
        | true =>
          cases hsi : env.skipInsertError with
          | true => simp [classify_and_protect_table, hs, hok, hp, hpe, hai, hsi]
          | false => simp [classify_and_protect_table, hs, hok, hp, hpe, hai, hsi]
        | false => simp [classify_and_protect_table, hs, hok, hp, hpe, hai]
    | false =>
      constructor
      · intro hmem
        exfalso
        simp [classify_and_protect_table, hs, hok, hp, List.mem_append,
          List.mem_cons] at hmem
        exact processColumns_no_policyStmt env t env.columns false t hmem
      · intro hex
        have hcontra := processColumns_haspii_of_mem env t env.columns false hok hex
        rw [hp] at hcontra
        exact absurd hcontra (by simp)

/-- C9 witness: instances of the monotonicity conjunct and of the
policy-branch equivalence at the concrete environment envA. -/
theorem C9_witness :
    (processColumns envA "T" ["NAME"] true).has_pii = true ∧
    (Event.policyStmt "T" ∈ (classify_and_protect_table envA "T").events ↔
      ∃ col ∈ envA.columns, colLabel envA col = some "PII") :=
  ⟨(C9_haspii_flag_invariant envA "T").1 ["NAME"],
   (C9_haspii_flag_invariant envA "T").2.2.2 rfl (by decide)⟩

/-- C10: every inserted TAG_APPLIED row carries OBJECT_TYPE TABLE, the full
table name, the tagged column's name and DETAILS of the exact form
DATA_SENSITIVITY= followed by that column's label, while POLICY_ATTACHED
and POLICY_SKIPPED rows are inserted with a NULL COLUMN_NAME. -/
theorem C10_audit_record_fields (env : Env) (t : String) (r : AuditRecord)
    (hr : r ∈ (classify_and_protect_table env t).inserted) :
    (r.action = "TAG_APPLIED" →
      r.object_type = "TABLE" ∧ r.object_name = t ∧
      ∃ col lab, col ∈ env.columns ∧ r.column_name = some col ∧
        colLabel env col = some lab ∧ r.details = "DATA_SENSITIVITY=" ++ lab) ∧
    ((r.action = "POLICY_ATTACHED" ∨ r.action = "POLICY_SKIPPED") →
      r.column_name = none) := by
  have hcases : r ∈ (processColumns env t env.columns false).inserted ∨
      r = skippedRecord t ∨ r = attachedRecord t := by
    cases hs : env.sampleError with
    | true => simp [classify_and_protect_table, hs] at hr
    | false =>
      cases hok : (processColumns env t env.columns false).ok with
      | false =>
        simp [classify_and_protect_table, hs, hok] at hr
        exact Or.inl hr
      | true =>
        cases hp : (processColumns env t env.columns false).has_pii with
        | false =>
          simp [classify_and_protect_table, hs, hok, hp] at hr
          exact Or.inl hr
        | true =>
          cases hpe : env.policyError with
          | true =>
            cases hsi : env.skipInsertError with
            | true =>
              simp [classify_and_protect_table, hs, hok, hp, hpe, hsi] at hr
              exact Or.inl hr
            | false =>
              simp [classify_and_protect_table, hs, hok, hp, hpe, hsi,
                List.mem_append, List.mem_cons] at hr
              rcases hr with hr | hr
              · exact Or.inl hr
              · exact Or.inr (Or.inl hr)
          | false =>
            cases hai : env.attachInsertError with
            | true =>
              cases hsi : env.skipInsertError with
              | true =>
                simp [classify_and_protect_table, hs, hok, hp, hpe, hai, hsi] at hr
                exact Or.inl hr
              | false =>
                simp [classify_and_protect_table, hs, hok, hp, hpe, hai, hsi,
                  List.mem_append, List.mem_cons] at hr
                rcases hr with hr | hr
                · exact Or.inl hr
                · exact Or.inr (Or.inl hr)
            | false =>
              simp [classify_and_protect_table, hs, hok, hp, hpe, hai,
                List.mem_append, List.mem_cons] at hr
              rcases hr with hr | hr
              · exact Or.inl hr
              · exact Or.inr (Or.inr hr)
  rcases hcases with hr2 | rfl | rfl
  · obtain ⟨col, lab, hcol, hlab, rfl⟩ := mem_processColumns_inserted env t _ _ r hr2
    refine ⟨fun _ => ⟨rfl, rfl, col, lab, hcol, rfl, hlab, rfl⟩, ?_⟩
    intro hact
    rcases hact with h | h <;> simp [tagRecord] at h
  · refine ⟨?_, fun _ => rfl⟩
    intro h
    simp [skippedRecord] at h
  · refine ⟨?_, fun _ => rfl⟩
    intro h
    simp [attachedRecord] at h

/-- C10 witness: the first tag row inserted by the concrete run of envA has
the stated field shape. -/
theorem C10_witness :
    ((tagRecord "T" "NAME" "PUBLIC").action = "TAG_APPLIED" →
      (tagRecord "T" "NAME" "PUBLIC").object_type = "TABLE" ∧
      (tagRecord "T" "NAME" "PUBLIC").object_name = "T" ∧
      ∃ col lab, col ∈ envA.columns ∧
        (tagRecord "T" "NAME" "PUBLIC").column_name = some col ∧
        colLabel envA col = some lab ∧
        (tagRecord "T" "NAME" "PUBLIC").details = "DATA_SENSITIVITY=" ++ lab) ∧
    (((tagRecord "T" "NAME" "PUBLIC").action = "POLICY_ATTACHED" ∨
        (tagRecord "T" "NAME" "PUBLIC").action = "POLICY_SKIPPED") →
      (tagRecord "T" "NAME" "PUBLIC").column_name = none) :=
  C10_audit_record_fields envA "T" (tagRecord "T" "NAME" "PUBLIC") (by decide)
